import Mathlib

/-!
Verification of the dashboard test server (src/dashboard/test-server.py).

The program is a local HTTP server built on Python's
SimpleHTTPRequestHandler with one overridden method, do_GET.  We embed the
handler as a pure function from a filesystem state and a request path to an
HTTP response together with a trace of filesystem effects.

Modelling decisions, each noted at the definition it concerns:
- the filesystem is split into the one distinguished file the handler reads
  (the results file at the parent-of-script-directory path
  test-results/summary.json) and the files visible to generic static file
  serving rooted at the script's own directory (the process chdirs there at
  startup);
- byte strings are List Nat; the payloads the handler itself builds are all
  ASCII, for which UTF-8 encoding coincides with the character code points;
- Python's json.dumps with indent=2 is reproduced for the JSON fragment the
  program uses (objects, strings, integers, booleans, and floats of integral
  value such as the literal 100.00, whose Python repr is "100.0").
-/

/-- A filesystem effect performed while handling a request.  statFile is a
metadata probe (Path.exists, or the open attempt of static serving on a
missing file); readFile is an actual content read; writeFile is a write
(the program never performs one, the constructor exists so that absence of
writes is a statement about traces rather than about the type). -/
inductive FsEffect where
  | statFile (path : String)
  | readFile (path : String)
  | writeFile (path : String)
deriving DecidableEq, Repr

/-- The filesystem as the handler observes it.  resultsFile holds the
contents of the optional file at the parent-of-script-directory path
test-results/summary.json (Path(__file__).parent.parent / 'test-results' /
'summary.json' in the source); none means the file does not exist.
staticFiles maps a request path to the contents of the corresponding file
under the script's own directory (the working directory of the server),
none when no such file exists. -/
structure FsState where
  resultsFile : Option (List Nat)
  staticFiles : String → Option (List Nat)

/-- An HTTP response: status code, headers in the order sent, body bytes. -/
structure HttpResponse where
  status : Nat
  headers : List (String × String)
  body : List Nat
deriving DecidableEq, Repr

/-- Result of handling a request: the response plus the trace of filesystem
effects performed while producing it. -/
structure HandlerOutput where
  resp : HttpResponse
  effects : List FsEffect
deriving DecidableEq, Repr

/-- JSON values as used by the program: the mock payload contains objects,
strings, integers, booleans and one float literal (100.00).  floatWhole n
models a Python float of integral value n; its json.dumps rendering is the
decimal of n followed by ".0", which matches Python's repr for such
floats. -/
inductive Json where
  | str (s : String) : Json
  | int (n : Int) : Json
  | floatWhole (n : Int) : Json
  | bool (b : Bool) : Json
  | obj (kvs : List (String × Json)) : Json

/-- n spaces, the indentation unit of json.dumps. -/
def spaces (n : Nat) : String :=
  String.mk (List.replicate n ' ')

/-- JSON string escaping as json.dumps performs it on the characters this
program emits (its strings are printable ASCII, so only the quote and the
backslash would be escaped; the control-character escapes are included for
completeness). -/
def escChar (c : Char) : String :=
  if c = '"' then "\\\""
  else if c = '\\' then "\\\\"
  else if c = '\n' then "\\n"
  else if c = '\t' then "\\t"
  else if c = '\r' then "\\r"
  else String.singleton c

/-- Escape every character of a string. -/
def escString (s : String) : String :=
  String.join (s.data.map escChar)

/-- A JSON string literal: quotes around the escaped contents. -/
def dumpStr (s : String) : String :=
  "\"" ++ escString s ++ "\""

mutual

/-- json.dumps(value, indent=ind) at nesting level lvl: Python's pretty
printer puts every object member on its own line indented by
(level * ind) spaces, separates members by ",\n" and key from value by
": ", and closes the object on a fresh line at the enclosing level. -/
def dumpJson (ind lvl : Nat) : Json → String
  | .str s => dumpStr s
  | .int n => toString n
  | .floatWhole n => toString n ++ ".0"
  | .bool b => if b then "true" else "false"
  | .obj [] => "\x7b\x7d"
  | .obj (kv :: kvs) =>
      "\x7b\n" ++ dumpEntry ind (lvl + 1) kv ++ dumpEntries ind (lvl + 1) kvs
        ++ "\n" ++ spaces (ind * lvl) ++ "\x7d"

/-- One object member: indentation, quoted key, ": ", value. -/
def dumpEntry (ind lvl : Nat) : String × Json → String
  | (k, v) => spaces (ind * lvl) ++ dumpStr k ++ ": " ++ dumpJson ind lvl v

/-- The remaining members, each preceded by the item separator ",\n". -/
def dumpEntries (ind lvl : Nat) : List (String × Json) → String
  | [] => ""
  | kv :: kvs => ",\n" ++ dumpEntry ind lvl kv ++ dumpEntries ind lvl kvs

end

/-- str.encode() of Python: UTF-8 bytes.  Every string this program encodes
is ASCII, where the UTF-8 encoding of a string is exactly the list of its
character code points, which is what this function produces. -/
def encode (s : String) : List Nat :=
  s.data.map Char.toNat

/-- The constant fallback payload mock_data of do_GET, transcribed from the
source with its insertion order (which json.dumps preserves).  The Python
literals True and 100.00 are a boolean and a float of integral value. -/
def mock_data : Json :=
  .obj [
    ("timestamp", .str "2025-01-21T12:00:00Z"),
    ("status", .str "success"),
    ("total_tests", .int 437),
    ("passed", .int 437),
    ("failed", .int 0),
    ("ignored", .int 0),
    ("pass_rate", .floatWhole 100),
    ("test_suites", .obj [
      ("library", .obj [
        ("name", .str "Library Unit Tests"),
        ("count", .int 396)]),
      ("infrastructure", .obj [
        ("name", .str "Infrastructure Integration Tests"),
        ("count", .int 19)]),
      ("jetstream", .obj [
        ("name", .str "JetStream Event Store Tests"),
        ("count", .int 6)]),
      ("persistence", .obj [
        ("name", .str "Persistence Integration Tests"),
        ("count", .int 7)])]),
    ("environment", .obj [
      ("rust_version", .str "1.75.0"),
      ("nats_required", .bool true),
      ("nats_endpoint", .str "localhost:4222")])]

/-- The special-cased request path. -/
def summaryPath : String := "/test-results/summary.json"

/-- The filesystem location of the results file, for the effect trace:
Path(__file__).parent.parent / 'test-results' / 'summary.json', i.e. the
path test-results/summary.json under the parent of the script's
directory. -/
def test_results_path : String := "../test-results/summary.json"

/-- The headers the handler sends on the summary path, in source order.
The source spells the first header name "Content-type" (HTTP header names
are case-insensitive). -/
def jsonHeaders : List (String × String) :=
  [("Content-type", "application/json"), ("Access-Control-Allow-Origin", "*")]

/-- Whether s ends with the given suffix, on the underlying character
lists. -/
def hasSuffix (s sfx : String) : Bool :=
  sfx.data.isSuffixOf s.data

/-- Content-type inference by file extension, as the generic static file
serving of SimpleHTTPRequestHandler performs it (mimetypes table; the
entries here cover the dashboard's files, everything else gets the
default). -/
def guessContentType (path : String) : String :=
  if hasSuffix path ".html" then "text/html"
  else if hasSuffix path ".json" then "application/json"
  else if hasSuffix path ".js" then "text/javascript"
  else if hasSuffix path ".css" then "text/css"
  else "application/octet-stream"

/-- Modelled from the spec: the generic static file serving that
super().do_GET() delegates to (Python's SimpleHTTPRequestHandler, outside
this repository's sources).  Per the spec it serves files by relative path
from the server's working directory with content-type inference by
extension and a standard 404 response when the file is absent.  Serving an
existing file reads its contents from disk (a readFile effect after the
open probe); a missing file yields 404 from the failed open (a statFile
probe only). -/
def staticServe (fs : FsState) (path : String) : HandlerOutput :=
  match fs.staticFiles path with
  | some bytes =>
      { resp := { status := 200
                  headers := [("Content-type", guessContentType path)]
                  body := bytes }
        effects := [.statFile path, .readFile path] }
  | none =>
      { resp := { status := 404
                  headers := [("Content-type", "text/html;charset=utf-8")]
                  body := encode "404 File not found" }
        effects := [.statFile path] }

/-- TestDashboardHandler.do_GET, transcribed from the source.  On path "/"
the handler rewrites self.path to "/index.html" and falls through to
generic static serving.  On the summary path it probes the results file
(Path.exists, a statFile effect): if it exists it sends 200 with the JSON
and cross-origin headers and the file's exact bytes (a readFile effect);
otherwise it sends 200 with the same headers and the json.dumps(mock_data,
indent=2) payload, built purely in memory.  Every other path is delegated
to generic static file serving. -/
def do_GET (fs : FsState) (path : String) : HandlerOutput :=
  if path = "/" then
    staticServe fs "/index.html"
  else if path = summaryPath then
    match fs.resultsFile with
    | some bytes =>
        { resp := { status := 200, headers := jsonHeaders, body := bytes }
          effects := [.statFile test_results_path, .readFile test_results_path] }
    | none =>
        { resp := { status := 200, headers := jsonHeaders
                    body := encode (dumpJson 2 0 mock_data) }
          effects := [.statFile test_results_path] }
  else
    staticServe fs path

/-- Key lookup in a JSON object member list, first match wins (the mock
payload has distinct keys, so this is plain association lookup). -/
def lookupKey (k : String) : List (String × Json) → Option Json
  | [] => none
  | (k2, v) :: rest => if k2 = k then some v else lookupKey k rest

/-- Member access on a JSON value: some value when the value is an object
with the key, none otherwise. -/
def Json.get (j : Json) (k : String) : Option Json :=
  match j with
  | .obj kvs => lookupKey k kvs
  | _ => none

/-- Integer member access: the key's value when it is an integer. -/
def Json.getInt (j : Json) (k : String) : Option Int :=
  match j.get k with
  | some (.int n) => some n
  | _ => none

/-- The keys the spec requires of the fallback payload. -/
def requiredKeys : List String :=
  ["timestamp", "status", "total_tests", "passed", "failed", "ignored",
   "pass_rate", "test_suites", "environment"]

/-- Sum of the count members over the entries of the test_suites object of
a payload (0 for a missing or malformed entry, which the mock payload does
not have). -/
def suiteCountsSum (j : Json) : Int :=
  match j.get "test_suites" with
  | some (.obj kvs) =>
      (kvs.map (fun kv => (kv.2.getInt "count").getD 0)).foldr (· + ·) 0
  | _ => 0

/-- Whitespace skipping of a JSON parser (the four JSON whitespace
characters). -/
def skipWs : List Char → List Char
  | [] => []
  | c :: cs => if c = ' ' || c = '\n' || c = '\t' || c = '\r' then skipWs cs else c :: cs

/-- Unescape one character following a backslash in a JSON string. -/
def unescapeChar (c : Char) : Option Char :=
  if c = '"' then some '"'
  else if c = '\\' then some '\\'
  else if c = '/' then some '/'
  else if c = 'n' then some '\n'
  else if c = 't' then some '\t'
  else if c = 'r' then some '\r'
  else none

/-- Parse the body of a JSON string literal after its opening quote,
returning the contents and the input after the closing quote. -/
def parseStringBody : List Char → Option (String × List Char)
  | [] => none
  | '"' :: rest => some ("", rest)
  | '\\' :: e :: rest => do
      let c ← unescapeChar e
      let (s, r) ← parseStringBody rest
      some (String.singleton c ++ s, r)
  | c :: rest => do
      let (s, r) ← parseStringBody rest
      some (String.singleton c ++ s, r)

/-- Split a leading run of decimal digits from the input. -/
def parseDigits : List Char → List Char × List Char
  | [] => ([], [])
  | c :: cs =>
      if c.isDigit then
        let (d, r) := parseDigits cs
        (c :: d, r)
      else ([], c :: cs)

/-- Decimal digits to a natural number. -/
def digitsToNat (acc : Nat) : List Char → Nat
  | [] => acc
  | c :: cs => digitsToNat (acc * 10 + (c.toNat - 48)) cs

/-- Parse a JSON number.  Integers parse to Json.int; a fractional part is
accepted only when it is the single digit 0, the form json.dumps gives a
float of integral value, parsing to Json.floatWhole (the only float shape
this program emits). -/
def parseNum (neg : Bool) (cs : List Char) : Option (Json × List Char) :=
  match parseDigits cs with
  | ([], _) => none
  | (ds, rest) =>
      let n : Int := Int.ofNat (digitsToNat 0 ds)
      let n := if neg then -n else n
      match rest with
      | '.' :: rest2 =>
          match parseDigits rest2 with
          | (fds, rest3) => if fds = ['0'] then some (.floatWhole n, rest3) else none
      | _ => some (.int n, rest)

mutual

/-- Parse one JSON value (string, object, boolean or number), fuel-bounded. -/
def parseVal : Nat → List Char → Option (Json × List Char)
  | 0, _ => none
  | fuel + 1, cs =>
      match skipWs cs with
      | '"' :: rest => do
          let (s, r) ← parseStringBody rest
          some (Json.str s, r)
      | '\x7b' :: rest => parseObjBody fuel rest
      | 't' :: 'r' :: 'u' :: 'e' :: rest => some (.bool true, rest)
      | 'f' :: 'a' :: 'l' :: 's' :: 'e' :: rest => some (.bool false, rest)
      | '-' :: rest => parseNum true rest
      | c :: rest => if c.isDigit then parseNum false (c :: rest) else none
      | [] => none

/-- Parse an object after its opening brace. -/
def parseObjBody : Nat → List Char → Option (Json × List Char)
  | 0, _ => none
  | fuel + 1, cs =>
      match skipWs cs with
      | '\x7d' :: rest => some (.obj [], rest)
      | cs2 => do
          let (kvs, rest) ← parseMembers fuel cs2
          some (Json.obj kvs, rest)

/-- Parse the members of an object up to and including its closing brace. -/
def parseMembers : Nat → List Char → Option (List (String × Json) × List Char)
  | 0, _ => none
  | fuel + 1, cs =>
      match skipWs cs with
      | '"' :: rest => do
          let (k, rest2) ← parseStringBody rest
          match skipWs rest2 with
          | ':' :: rest3 => do
              let (v, rest4) ← parseVal fuel rest3
              match skipWs rest4 with
              | ',' :: rest5 => do
                  let (kvs, rest6) ← parseMembers fuel rest5
                  some ((k, v) :: kvs, rest6)
              | '\x7d' :: rest5 => some ([(k, v)], rest5)
              | _ => none
          | _ => none
      | _ => none

end

/-- Deserialize a complete JSON document: one value followed only by
whitespace. -/
def parseJson (s : String) : Option Json :=
  match parseVal (s.length + 1) s.data with
  | some (j, rest) => if (skipWs rest).isEmpty then some j else none
  | none => none

/-- The path a request is ultimately served from by generic static file
serving: "/" is rewritten to "/index.html", every other path is used as
is. -/
def staticTarget (p : String) : String :=
  if p = "/" then "/index.html" else p

set_option maxRecDepth 20000 in
/-- The serialized mock payload deserializes back to the payload itself. -/
theorem mock_roundtrip : parseJson (dumpJson 2 0 mock_data) = some mock_data := by
  rfl

/-- Claim C1: whenever the results file exists, a GET request to
/test-results/summary.json answers 200 with the application/json
content type and the Access-Control-Allow-Origin star header, and the body
is exactly the bytes of the results file, unmodified. -/
theorem summary_served_from_file (fs : FsState) (b : List Nat)
    (h : fs.resultsFile = some b) :
    (do_GET fs summaryPath).resp.status = 200 ∧
    (do_GET fs summaryPath).resp.headers =
      [("Content-type", "application/json"),
       ("Access-Control-Allow-Origin", "*")] ∧
    (do_GET fs summaryPath).resp.body = b := by
  unfold do_GET
  rw [if_neg (by decide), if_pos rfl, h]
  exact ⟨rfl, rfl, rfl⟩

/-- Witness for C1 at a concrete filesystem state holding a two-byte
results file. -/
theorem summary_served_from_file_witness :
    (do_GET { resultsFile := some [123, 125], staticFiles := fun _ => none }
        summaryPath).resp.status = 200 ∧
    (do_GET { resultsFile := some [123, 125], staticFiles := fun _ => none }
        summaryPath).resp.headers =
      [("Content-type", "application/json"),
       ("Access-Control-Allow-Origin", "*")] ∧
    (do_GET { resultsFile := some [123, 125], staticFiles := fun _ => none }
        summaryPath).resp.body = [123, 125] :=
  summary_served_from_file
    { resultsFile := some [123, 125], staticFiles := fun _ => none }
    [123, 125] rfl

/-- Claim C2: when the results file does not exist, a GET request to
/test-results/summary.json answers 200 with the same headers and the
json.dumps(mock_data, indent=2) body; that body deserializes back to the
mock payload, which contains all the required keys and satisfies
total_tests = passed + failed + ignored (437 = 437 + 0 + 0). -/
theorem summary_mock_fallback (fs : FsState) (h : fs.resultsFile = none) :
    (do_GET fs summaryPath).resp.status = 200 ∧
    (do_GET fs summaryPath).resp.headers =
      [("Content-type", "application/json"),
       ("Access-Control-Allow-Origin", "*")] ∧
    (do_GET fs summaryPath).resp.body = encode (dumpJson 2 0 mock_data) ∧
    parseJson (dumpJson 2 0 mock_data) = some mock_data ∧
    (requiredKeys.all fun k => (mock_data.get k).isSome) = true ∧
    mock_data.getInt "total_tests" = some 437 ∧
    mock_data.getInt "passed" = some 437 ∧
    mock_data.getInt "failed" = some 0 ∧
    mock_data.getInt "ignored" = some 0 ∧
    (437 : Int) = 437 + 0 + 0 := by
  unfold do_GET
  rw [if_neg (by decide), if_pos rfl, h]
  exact ⟨rfl, rfl, rfl, mock_roundtrip, rfl, rfl, rfl, rfl, rfl, by norm_num⟩

/-- Witness for C2 at a concrete filesystem state without a results
file. -/
theorem summary_mock_fallback_witness :
    (do_GET { resultsFile := none, staticFiles := fun _ => none }
        summaryPath).resp.status = 200 ∧
    (do_GET { resultsFile := none, staticFiles := fun _ => none }
        summaryPath).resp.headers =
      [("Content-type", "application/json"),
       ("Access-Control-Allow-Origin", "*")] ∧
    (do_GET { resultsFile := none, staticFiles := fun _ => none }
        summaryPath).resp.body = encode (dumpJson 2 0 mock_data) ∧
    parseJson (dumpJson 2 0 mock_data) = some mock_data ∧
    (requiredKeys.all fun k => (mock_data.get k).isSome) = true ∧
    mock_data.getInt "total_tests" = some 437 ∧
    mock_data.getInt "passed" = some 437 ∧
    mock_data.getInt "failed" = some 0 ∧
    mock_data.getInt "ignored" = some 0 ∧
    (437 : Int) = 437 + 0 + 0 :=
  summary_mock_fallback { resultsFile := none, staticFiles := fun _ => none } rfl

/-- Claim C3 (counterexample): in the constant mock payload, total_tests is
437 while the per-suite counts sum to 428 (396 + 19 + 6 + 7), so the
equality the claim asserts between total_tests and the suite-count sum is
false. -/
theorem mock_total_not_suite_sum :
    mock_data.getInt "total_tests" = some 437 ∧
    suiteCountsSum mock_data = 428 ∧
    ¬ mock_data.getInt "total_tests" = some (suiteCountsSum mock_data) := by
  refine ⟨rfl, rfl, ?_⟩
  decide

/-- Claim C3 (amended): in the constant mock payload the per-suite counts
sum to 428, which differs from total_tests = 437; the additive relation
that does hold is total_tests = passed + failed + ignored
(437 = 437 + 0 + 0). -/
theorem mock_additive_invariant :
    suiteCountsSum mock_data = 428 ∧
    mock_data.getInt "total_tests" = some 437 ∧
    mock_data.getInt "passed" = some 437 ∧
    mock_data.getInt "failed" = some 0 ∧
    mock_data.getInt "ignored" = some 0 ∧
    (437 : Int) ≠ 428 ∧
    (437 : Int) = 437 + 0 + 0 := by
  refine ⟨rfl, rfl, rfl, rfl, rfl, by norm_num, by norm_num⟩

/-- Claim C4: for every filesystem state, a GET request for the path "/"
produces the same output (response and effects) as a GET request for the
path "/index.html". -/
theorem root_same_as_index (fs : FsState) :
    do_GET fs "/" = do_GET fs "/index.html" := by
  unfold do_GET
  rw [if_pos rfl, if_neg (by decide), if_neg (by decide)]

/-- Claim C5: every GET request whose path is neither "/" nor the summary
path is delegated to generic static file serving, and when the requested
file does not exist the response is the 404 of that mechanism. -/
theorem other_paths_delegate (fs : FsState) (p : String)
    (h1 : p ≠ "/") (h2 : p ≠ summaryPath) :
    do_GET fs p = staticServe fs p ∧
    (fs.staticFiles p = none → (do_GET fs p).resp.status = 404) := by
  refine ⟨?_, ?_⟩
  · unfold do_GET
    rw [if_neg h1, if_neg h2]
  · intro hn
    unfold do_GET staticServe
    rw [if_neg h1, if_neg h2, hn]

/-- Witness for C5 at a concrete empty filesystem and the path
"/nope.txt": the request is delegated and answered 404. -/
theorem other_paths_delegate_witness :
    (do_GET { resultsFile := none, staticFiles := fun _ => none } "/nope.txt"
      = staticServe { resultsFile := none, staticFiles := fun _ => none }
          "/nope.txt") ∧
    (do_GET { resultsFile := none, staticFiles := fun _ => none }
        "/nope.txt").resp.status = 404 :=
  ⟨(other_paths_delegate { resultsFile := none, staticFiles := fun _ => none }
      "/nope.txt" (by decide) (by decide)).1,
   (other_paths_delegate { resultsFile := none, staticFiles := fun _ => none }
      "/nope.txt" (by decide) (by decide)).2 rfl⟩

/-- Claim C6: for every filesystem state, a GET request to the summary path
is answered with status 200, whether or not the results file exists; the
missing-file case takes the mock-data fallback, never an error. -/
theorem summary_never_fails (fs : FsState) :
    (do_GET fs summaryPath).resp.status = 200 := by
  obtain ⟨rf, sf⟩ := fs
  unfold do_GET
  rw [if_neg (by decide), if_pos rfl]
  cases rf <;> rfl

/-- A filesystem state with no results file and a single static file
index.html, used to exhibit a content read performed by static file
serving. -/
def cfs7 : FsState :=
  { resultsFile := none
    staticFiles := fun p => if p = "/index.html" then some [60] else none }

/-- Claim C7 (counterexample): a GET request for "/index.html" on a
filesystem where that static file exists performs a content read although
the requested path is not /test-results/summary.json, contradicting the
claim that every request outside that path is answered purely in
memory. -/
theorem static_serving_reads_counterexample :
    FsEffect.readFile "/index.html" ∈ (do_GET cfs7 "/index.html").effects ∧
    "/index.html" ≠ summaryPath := by
  decide

/-- Claim C7 (amended): handling a GET request never writes to the
filesystem, and a content read happens in exactly two situations: on the
summary path when the results file exists (reading that file), and on a
request delegated to static file serving when the requested file exists
(reading that file). -/
theorem effects_characterization (fs : FsState) (p : String) :
    (∀ q, FsEffect.writeFile q ∉ (do_GET fs p).effects) ∧
    (∀ q, FsEffect.readFile q ∈ (do_GET fs p).effects →
      (p = summaryPath ∧ q = test_results_path ∧
        fs.resultsFile.isSome = true) ∨
      (p ≠ summaryPath ∧ q = staticTarget p ∧
        (fs.staticFiles (staticTarget p)).isSome = true)) := by
  by_cases h1 : p = "/"
  · subst h1
    rw [show staticTarget "/" = "/index.html" from rfl]
    unfold do_GET
    rw [if_pos rfl]
    unfold staticServe
    cases h : fs.staticFiles "/index.html" with
    | none =>
        refine ⟨fun q => ?_, fun q hq => ?_⟩
        · simp
        · simp at hq
    | some b =>
        refine ⟨fun q => ?_, fun q hq => ?_⟩
        · simp
        · right
          simp at hq
          exact ⟨by decide, hq, rfl⟩
  · have hst : staticTarget p = p := if_neg h1
    rw [hst]
    by_cases h2 : p = summaryPath
    · subst h2
      unfold do_GET
      rw [if_neg (by decide), if_pos rfl]
      cases hr : fs.resultsFile with
      | none =>
          refine ⟨fun q => ?_, fun q hq => ?_⟩
          · simp
          · simp at hq
      | some b =>
          refine ⟨fun q => ?_, fun q hq => ?_⟩
          · simp
          · left
            simp at hq
            exact ⟨rfl, hq, rfl⟩
    · unfold do_GET
      rw [if_neg h1, if_neg h2]
      unfold staticServe
      cases h : fs.staticFiles p with
      | none =>
          refine ⟨fun q => ?_, fun q hq => ?_⟩
          · simp
          · simp at hq
      | some b =>
          refine ⟨fun q => ?_, fun q hq => ?_⟩
          · simp
          · right
            simp at hq
            exact ⟨h2, hq, rfl⟩

/-- Witness for the amended C7: on the concrete state cfs7 the content
read performed for "/index.html" is classified by the theorem as a static
serving read of an existing file. -/
theorem effects_characterization_witness :
    ("/index.html" = summaryPath ∧ "/index.html" = test_results_path ∧
      cfs7.resultsFile.isSome = true) ∨
    ("/index.html" ≠ summaryPath ∧ "/index.html" = staticTarget "/index.html" ∧
      (cfs7.staticFiles (staticTarget "/index.html")).isSome = true) :=
  (effects_characterization cfs7 "/index.html").2 "/index.html" (by decide)

/-- Claim C8: the response to a GET request for the summary path depends
only on the results file: two filesystem states agreeing on the results
file — however their static files differ, including a static file named
test-results/summary.json under the script's directory — get identical
outputs, so the summary path never falls through to static serving. -/
theorem summary_independent_of_static (fs1 fs2 : FsState)
    (h : fs1.resultsFile = fs2.resultsFile) :
    do_GET fs1 summaryPath = do_GET fs2 summaryPath := by
  unfold do_GET
  rw [if_neg (by decide), if_pos rfl, if_neg (by decide), if_pos rfl, h]

/-- A state with a static file at the summary path under the script's
directory, and no results file. -/
def cfs8a : FsState :=
  { resultsFile := none
    staticFiles := fun p => if p = summaryPath then some [48] else none }

/-- A state with no files at all. -/
def cfs8b : FsState :=
  { resultsFile := none, staticFiles := fun _ => none }

/-- Witness for C8: the state with a static file at the summary path and
the empty state answer the summary path identically. -/
theorem summary_independent_of_static_witness :
    do_GET cfs8a summaryPath = do_GET cfs8b summaryPath :=
  summary_independent_of_static cfs8a cfs8b rfl

/-- A state with no results file whose static files contain exactly a file
at the summary path (with a body differing from the mock payload). -/
def cfs9 : FsState :=
  { resultsFile := none
    staticFiles := fun p => if p = summaryPath then some [48] else none }

/-- Claim C9 (counterexample): the summary path begins with "/" and is not
"/", yet the handler does not serve it by generic static file serving: on
the concrete state cfs9 the two outputs differ (mock payload versus the
static file's byte). -/
theorem summary_not_static_counterexample :
    do_GET cfs9 summaryPath ≠ staticServe cfs9 summaryPath := by
  decide

/-- Claim C9 (amended): the rewrite to index.html applies exactly when the
request path is the one-character string "/"; every other path except
/test-results/summary.json — in particular "/" followed by a query string
— is not rewritten and is handled by generic static file serving. -/
theorem rewrite_only_exact_root (fs : FsState) (p : String)
    (h1 : p ≠ "/") (h2 : p ≠ summaryPath) :
    do_GET fs "/" = staticServe fs "/index.html" ∧
    do_GET fs p = staticServe fs p := by
  refine ⟨?_, ?_⟩
  · unfold do_GET
    rw [if_pos rfl]
  · unfold do_GET
    rw [if_neg h1, if_neg h2]

/-- Witness for the amended C9 on the empty state and the path "/?page=1"
("/" followed by a query string). -/
theorem rewrite_only_exact_root_witness :
    do_GET cfs8b "/" = staticServe cfs8b "/index.html" ∧
    do_GET cfs8b "/?page=1" = staticServe cfs8b "/?page=1" :=
  rewrite_only_exact_root cfs8b "/?page=1" (by decide) (by decide)

/-- Claim C10: when the results file does not exist, the body answered on
the summary path is the same for any two requests, whatever the rest of
the filesystem looks like: it is the serialization of a constant. -/
theorem mock_body_deterministic (fs1 fs2 : FsState)
    (h1 : fs1.resultsFile = none) (h2 : fs2.resultsFile = none) :
    (do_GET fs1 summaryPath).resp.body = (do_GET fs2 summaryPath).resp.body := by
  unfold do_GET
  rw [if_neg (by decide), if_pos rfl, h1, if_neg (by decide), if_pos rfl, h2]

/-- A state with no results file and a static file everywhere. -/
def cfs10a : FsState :=
  { resultsFile := none, staticFiles := fun _ => some [1] }

/-- A state with no results file and no static files. -/
def cfs10b : FsState :=
  { resultsFile := none, staticFiles := fun _ => none }

/-- Witness for C10 on two concrete states with different static files. -/
theorem mock_body_deterministic_witness :
    (do_GET cfs10a summaryPath).resp.body
      = (do_GET cfs10b summaryPath).resp.body :=
  mock_body_deterministic cfs10a cfs10b rfl rfl
